import Mathlib

/-!
Verification development for the pyATS VXLAN test-suite repository.

This file shallowly embeds the parsing and validation engine of the
repository (principally `modular architecture/vxlan_utils.py`,
`modular architecture/vxlan_validators.py`,
`modular architecture/base_test.py`,
`modular architecture/enhanced_vxlan_testsuite.py`) in Lean 4 and proves
or refutes the specification claims about it.

Conventions of the embedding:
- Python strings are Lean `String`s; all string scanning is done on
  `String.data` (`List Char`) with structurally recursive functions so
  that every definition evaluates inside the kernel.
- Python floats are modelled as `ℚ`.  The only float operations the code
  performs on versions and percentages are construction from short
  decimal literals, division, multiplication and order comparison, for
  which `ℚ` and IEEE doubles agree at every input the claims touch.
- Python regular expressions used by the code are simple enough that
  `re.search` is equivalent to a leftmost scan trying the pattern at
  each position; each pattern is modelled by a dedicated matcher whose
  greedy/backtracking behaviour is reproduced exactly (for these
  patterns greedy repetition of a character class followed by a
  character outside the class is equivalent to taking the maximal run).
- Python exceptions are modelled with `Except`: a validator body that
  can raise receives `Except PyExc ...` and the try/except boundary is
  the corresponding `match`.
-/

/-! ## Generic string machinery (models of Python `in`, `.lower()`, `.strip()`, `.split('\n')`, `str.count`) -/

/-- Does `hay` start with `needle`?  (model of Python startswith, used to build `in`). -/
def beginsWith : List Char → List Char → Bool
  | _, [] => true
  | [], _ :: _ => false
  | a :: as, b :: bs => a = b && beginsWith as bs

/-- Does `hay` contain `needle` as a contiguous subsequence?  Model of Python `needle in hay`. -/
def subChain : List Char → List Char → Bool
  | [], needle => needle.isEmpty
  | hay@(_ :: tl), needle => beginsWith hay needle || subChain tl needle

/-- Python `pat in s` on strings. -/
def strContains (s pat : String) : Bool :=
  subChain s.data pat.data

/-- Python `s.lower()` (the code only ever lowercases ASCII). -/
def lowerStr (s : String) : String :=
  String.mk (s.data.map Char.toLower)

/-- Python `\s` for the ASCII whitespace the device output contains. -/
def isPySpace (c : Char) : Bool :=
  c = ' ' || c = '\t' || c = '\n' || c = '\r' || c.toNat = 11 || c.toNat = 12

/-- Python `\w` (ASCII word character). -/
def isWordChar (c : Char) : Bool :=
  c.isAlphanum || c = '_'

/-- Python `s.strip()`. -/
def trimStr (s : String) : String :=
  String.mk (((s.data.dropWhile isPySpace).reverse.dropWhile isPySpace).reverse)

/-- Python `s.split('\n')`, keeping empty pieces. -/
def splitLinesAux : List Char → List Char → List String
  | [], acc => [String.mk acc.reverse]
  | c :: tl, acc =>
    if c = '\n' then String.mk acc.reverse :: splitLinesAux tl []
    else splitLinesAux tl (c :: acc)

/-- Python `s.split('\n')`. -/
def splitLines (s : String) : List String :=
  splitLinesAux s.data []

/-- Maximal runs of decimal digits, left to right: model of `re.findall(r'\d+', s)`. -/
def digitRunsAux : List Char → List Char → List (List Char)
  | [], acc => if acc.isEmpty then [] else [acc.reverse]
  | c :: tl, acc =>
    if c.isDigit then digitRunsAux tl (c :: acc)
    else if acc.isEmpty then digitRunsAux tl []
    else acc.reverse :: digitRunsAux tl []

/-- All digit runs of a string. -/
def digitRuns (cs : List Char) : List (List Char) :=
  digitRunsAux cs []

/-- Numeric value of a digit run (model of Python `int(...)` on a digit string). -/
def natOfDigits (ds : List Char) : ℕ :=
  ds.foldl (fun n c => n * 10 + (c.toNat - 48)) 0

/-- `re.findall(r'\d+', line)` converted with `int`. -/
def lineNumbers (line : String) : List ℕ :=
  (digitRuns line.data).map natOfDigits

/-- Match a literal string at the head of the input; returns the rest. -/
def litChars : List Char → List Char → Option (List Char)
  | cs, [] => some cs
  | [], _ :: _ => none
  | c :: cs, l :: ls => if c = l then litChars cs ls else none

/-- Expect a literal dot (the `\.` of the patterns). -/
def expectDot : List Char → Option (List Char)
  | '.' :: tl => some tl
  | _ => none

/-- `\s+`: at least one whitespace character, consumed greedily. -/
def spaces1 (cs : List Char) : Option (List Char) :=
  if (cs.takeWhile isPySpace).isEmpty then none else some (cs.dropWhile isPySpace)

/-- `(\d+)`: a maximal nonempty digit run together with the rest. -/
def digits1 (cs : List Char) : Option (List Char × List Char) :=
  let run := cs.takeWhile Char.isDigit
  if run.isEmpty then none else some (run, cs.dropWhile Char.isDigit)

/-- Leftmost `re.search`: try the matcher at every position, left to right. -/
def scanFor {α : Type} (f : List Char → Option α) : List Char → Option α
  | [] => f []
  | cs@(_ :: tl) =>
    match f cs with
    | some v => some v
    | none => scanFor f tl

/-- Non-overlapping occurrence count: Python `s.count(pat)` for nonempty `pat`. -/
def countOccurAux (pat : List Char) : List Char → ℕ → ℕ
  | _, 0 => 0
  | hay, fuel + 1 =>
    match hay with
    | [] => 0
    | _ :: tl =>
      if beginsWith hay pat then 1 + countOccurAux pat (hay.drop pat.length) fuel
      else countOccurAux pat tl fuel

/-- Python `s.count(pat)` (only used with the nonempty pattern `Route Distinguisher`). -/
def countOccur (pat hay : List Char) : ℕ :=
  countOccurAux pat hay hay.length

/-! ## Numeric rendering helpers for the f-string messages -/

/-- A single-quote character, used to render Python `repr` of string lists. -/
def sQuote : String := String.singleton (Char.ofNat 39)

/-- Comma-join, as in Python list reprs. -/
def joinComma : List String → String
  | [] => ""
  | [s] => s
  | s :: tl => s ++ ", " ++ joinComma tl

/-- Python `repr` of a list of strings, e.g. `['10.0.0.2']`. -/
def pyReprStrList (l : List String) : String :=
  "[" ++ joinComma (l.map (fun s => sQuote ++ s ++ sQuote)) ++ "]"

/-- Rendering of a percentage with one decimal, standing in for Python
`f"{p:.1f}"` (Python rounds the IEEE double half-to-even; no claim
depends on the rendered digits, only on the compared value). -/
def fmt1 (q : ℚ) : String :=
  let n : ℤ := Rat.floor (q * 10 + 1 / 2)
  Nat.repr (n / 10).natAbs ++ "." ++ Nat.repr (n % 10).natAbs

/-! ## Data model (`vxlan_utils.py` dataclasses, `vxlan_validators.py` ValidationResult) -/

/-- `VNIInfo` dataclass of `vxlan_utils.py` (the unused `replication`
field is carried for fidelity). -/
structure VNIInfo where
  vni : ℕ
  type : String
  vlan : Option ℕ := none
  vrf : Option String := none
  state : Option String := none
  replication : Option String := none
deriving DecidableEq

/-- `BGPNeighbor` dataclass of `vxlan_utils.py`.  (The dataclass also has
an always-`None` prefix-count field that no code reads; it is omitted.) -/
structure BGPNeighbor where
  ip : String
  state : String
  uptime : Option String := none
deriving DecidableEq

/-- A parsed NVE peer: the `{'ip': ..., 'state': ...}` dict built by
`VXLANParser.parse_nve_peers`. -/
structure Peer where
  ip : String
  state : String
deriving DecidableEq

/-- The values stored in a `ValidationResult.details` dict. -/
inductive DetailValue where
  | nat (n : ℕ)
  | rat (q : ℚ)
  | str (s : String)
  | strList (l : List String)
  | peerList (l : List Peer)
  | vniList (l : List VNIInfo)
  | neighborList (l : List BGPNeighbor)
deriving DecidableEq

/-- `ValidationResult` dataclass of `vxlan_validators.py`. -/
structure ValidationResult where
  passed : Bool
  message : String
  details : List (String × DetailValue)
  recommendations : List String
  severity : String
deriving DecidableEq

/-- `details.get(key, default)` on the association-list model of the dict. -/
def lookupDetail (d : List (String × DetailValue)) (k : String) : Option DetailValue :=
  match d.find? (fun kv => decide (kv.1 = k)) with
  | some kv => some kv.2
  | none => none

/-- The severity order declared by the `ValidationResult` docstring
(`info, warning, error, critical`) and §3 of the spec. -/
def sevRank : String → ℕ
  | "warning" => 1
  | "error" => 2
  | "critical" => 3
  | _ => 0

/-! ## Extractor: `VXLANParser` of `vxlan_utils.py` -/

namespace VXLANParser

/-- Matcher for `REGEX_PATTERNS['nxos_version']`, i.e.
`system:\s+version\s+(\d+\.\d+)`, applied at the head of the input;
yields the captured version as a rational (`float(match.group(1))`). -/
def matchVersionAt (cs : List Char) : Option ℚ := do
  let cs ← litChars cs "system:".data
  let cs ← spaces1 cs
  let cs ← litChars cs "version".data
  let cs ← spaces1 cs
  let (ip, cs) ← digits1 cs
  let cs ← expectDot cs
  let (fp, _) ← digits1 cs
  pure ((natOfDigits ip : ℚ) + (natOfDigits fp : ℚ) / ((10 : ℚ) ^ fp.length))

/-- `VXLANParser.parse_nxos_version`: `re.search` of the version pattern,
`None` when nothing matches. -/
def parse_nxos_version (output : String) : Option ℚ :=
  scanFor matchVersionAt output.data

/-- One group `[0-9]{1,3}` of the IP pattern followed by a forced
separator: with greedy backtracking this succeeds exactly when the
maximal digit run has length 1..3. -/
def ipGroup (cs : List Char) : Option (List Char × List Char) :=
  let run := cs.takeWhile Char.isDigit
  if run.length = 0 || 3 < run.length then none
  else some (run, cs.dropWhile Char.isDigit)

/-- The trailing `\b` of the IP pattern: end of input or a non-word character. -/
def boundaryOk : List Char → Bool
  | [] => true
  | c :: _ => !isWordChar c

/-- Matcher for `REGEX_PATTERNS['ip_address']`, i.e.
`\b(?:[0-9]{1,3}\.){3}[0-9]{1,3}\b`, applied at the current position
(the leading `\b` is checked by the caller); yields the matched text. -/
def matchIPAt (cs : List Char) : Option (List Char) := do
  let (r1, t1) ← ipGroup cs
  let t1 ← expectDot t1
  let (r2, t2) ← ipGroup t1
  let t2 ← expectDot t2
  let (r3, t3) ← ipGroup t2
  let t3 ← expectDot t3
  let (r4, t4) ← ipGroup t3
  if boundaryOk t4 then
    pure (r1 ++ '.' :: (r2 ++ '.' :: (r3 ++ '.' :: r4)))
  else none

/-- Leftmost scan of the IP pattern; `prev` is the character before the
current position, for the leading `\b`. -/
def findIPv4Aux : Option Char → List Char → Option (List Char)
  | _, [] => none
  | prev, c :: tl =>
    let bOk := match prev with
      | none => true
      | some p => !isWordChar p
    match (if bOk then matchIPAt (c :: tl) else none) with
    | some m => some m
    | none => findIPv4Aux (some c) tl

/-- `re.search(REGEX_PATTERNS['ip_address'], line)` with `.group()`. -/
def findIPv4 (line : String) : Option String :=
  (findIPv4Aux none line.data).map String.mk

/-- The per-line body of `VXLANParser.parse_nve_peers`: a line yields a
peer iff the IP pattern matches somewhere in it, and the state is the
literal containment test `'Up' if 'Up' in line else 'Down'`. -/
def peerOfLine (line : String) : Option Peer :=
  match findIPv4 line with
  | none => none
  | some ip => some ⟨ip, if strContains line "Up" then "Up" else "Down"⟩

/-- `VXLANParser.parse_nve_peers`. -/
def parse_nve_peers (output : String) : List Peer :=
  (splitLines output).filterMap peerOfLine

/-- Matcher for `REGEX_PATTERNS['vlan_number']`, i.e. `VLAN:\s*(\d+)`,
applied at the head of the input. -/
def matchVlanAt (cs : List Char) : Option ℕ := do
  let cs ← litChars cs "VLAN:".data
  let (d, _) ← digits1 (cs.dropWhile isPySpace)
  pure (natOfDigits d)

/-- Matcher for `REGEX_PATTERNS['vrf_name']`, i.e. `VRF:\s*(\w+)`,
applied at the head of the input. -/
def matchVrfAt (cs : List Char) : Option String := do
  let cs ← litChars cs "VRF:".data
  let cs := cs.dropWhile isPySpace
  let run := cs.takeWhile isWordChar
  if run.isEmpty then none else pure (String.mk run)

/-- The per-line body of `VXLANParser.parse_vni_info`: a line is a VNI
record iff it matches `^\s*(\d+)`; type, VLAN, VRF and state are then
extracted by independent sub-patterns, each defaulting to unset. -/
def vniOfLine (line : String) : Option VNIInfo :=
  let rest := line.data.dropWhile isPySpace
  let ds := rest.takeWhile Char.isDigit
  if ds.isEmpty then none
  else some
    { vni := natOfDigits ds
      type := if strContains line "L3" then "L3" else "L2"
      vlan := scanFor matchVlanAt line.data
      vrf := scanFor matchVrfAt line.data
      state :=
        if strContains line "Up" then some "Up"
        else if strContains line "Down" then some "Down"
        else none
      replication := none }

/-- `VXLANParser.parse_vni_info`. -/
def parse_vni_info (output : String) : List VNIInfo :=
  (splitLines output).filterMap vniOfLine

end VXLANParser

/-! ## RuleEngine: `VXLANValidator` of `vxlan_utils.py` -/

/-- The `'level'/'percentage'/'recommendations'` dict returned by
`VXLANValidator.validate_resource_usage`. -/
structure ResourceOutcome where
  level : String
  percentage : ℚ
  recommendations : List String
deriving DecidableEq

/-- Per-VNI issue strings of `VXLANValidator.validate_vni_configuration`
(`vxlan_utils.py`, two independent `if`s plus the state check). -/
def vniIssuesU (v : VNIInfo) : List String :=
  (if v.type = "L2" ∧ v.vlan = none then
    ["L2 VNI " ++ Nat.repr v.vni ++ " missing VLAN association"] else []) ++
  (if v.type = "L3" ∧ v.vrf = none then
    ["L3 VNI " ++ Nat.repr v.vni ++ " missing VRF association"] else []) ++
  (if v.state = some "Down" then
    ["VNI " ++ Nat.repr v.vni ++ " is in Down state"] else [])

/-- Per-VNI issue strings of `VNIValidator.validate_vni_configuration`
(`vxlan_validators.py`, `if/elif` on the type plus the state check). -/
def vniIssuesV (v : VNIInfo) : List String :=
  (if v.type = "L2" then
    (if v.vlan = none then ["L2 VNI " ++ Nat.repr v.vni ++ " missing VLAN association"] else [])
  else if v.type = "L3" then
    (if v.vrf = none then ["L3 VNI " ++ Nat.repr v.vni ++ " missing VRF association"] else [])
  else []) ++
  (if v.state = some "Down" then ["VNI " ++ Nat.repr v.vni ++ " is in Down state"] else [])

/-- The `for vni in vnis` issue-collection loop: issues of every record,
in order, with no short-circuiting. -/
def collectIssues (f : VNIInfo → List String) : List VNIInfo → List String
  | [] => []
  | v :: tl => f v ++ collectIssues f tl

namespace VXLANValidator

/-- `VXLANValidator.validate_nxos_version` (`vxlan_utils.py`). -/
def validate_nxos_version (version : Option ℚ) : Bool × String :=
  match version with
  | none => (false, "Could not determine NX-OS version")
  | some v =>
    if v < 7 then (false, "NX-OS " ++ fmt1 v ++ " does not support VXLAN (minimum: 7.0)")
    else (true, "NX-OS " ++ fmt1 v ++ " supports VXLAN")

/-- `VXLANValidator.validate_vni_configuration` (`vxlan_utils.py`):
returns `(ok, issues)`. -/
def validate_vni_configuration (vnis : List VNIInfo) : Bool × List String :=
  if vnis = [] then (false, ["No VNIs configured"])
  else
    let issues := collectIssues vniIssuesU vnis
    (issues.isEmpty, issues)

/-- The body of `VXLANValidator.validate_resource_usage` once the two
threshold locals are fixed (in the source they are the local variables
`warning_threshold`/`critical_threshold`). -/
def resourceUsageWith (warning_threshold critical_threshold : ℚ)
    (resource_type : String) (current maximum : ℕ) : Bool × ResourceOutcome :=
  let percentage : ℚ := (current : ℚ) / (maximum : ℚ) * 100
  if percentage ≥ critical_threshold then
    (false, ⟨"critical", percentage,
      ["Immediate action required - " ++ resource_type ++ " usage is " ++ fmt1 percentage ++ "%",
       "Consider capacity planning and optimization",
       "Review " ++ resource_type ++ " allocation and remove unused entries"]⟩)
  else if percentage ≥ warning_threshold then
    (false, ⟨"warning", percentage,
      ["Warning - " ++ resource_type ++ " usage is " ++ fmt1 percentage ++ "%",
       "Plan for capacity expansion",
       "Monitor " ++ resource_type ++ " growth trends"]⟩)
  else (true, ⟨"ok", percentage, []⟩)

/-- `VXLANValidator.validate_resource_usage` (`vxlan_utils.py`): default
cut points 75/90, overridden to 70/85 for `resource_type == 'vni'`. -/
def validate_resource_usage (resource_type : String) (current maximum : ℕ) :
    Bool × ResourceOutcome :=
  if resource_type = "vni" then resourceUsageWith 70 85 resource_type current maximum
  else resourceUsageWith 75 90 resource_type current maximum

end VXLANValidator

/-! ## RuleEngine: validator classes of `vxlan_validators.py`
(each validator is modelled as a function of the command output it
would have fetched; the try/except boundaries around command execution
are modelled separately for claim C9). -/

namespace PlatformValidator

/-- `PlatformValidator.validate_platform_support` after a successful
`show version` execution. -/
def validate_platform_support (output : String) : ValidationResult :=
  if strContains (lowerStr output) "nexus" = false || strContains output "9000" = false then
    ⟨false, "Platform may not support VXLAN - expecting Nexus 9000 series", [],
     ["Verify platform VXLAN support in documentation",
      "Check hardware capabilities and licensing"], "warning"⟩
  else
    match VXLANParser.parse_nxos_version output with
    | none =>
      ⟨false, "Could not determine NX-OS version", [],
       ["Check " ++ sQuote ++ "show version" ++ sQuote ++ " output format"], "error"⟩
    | some version =>
      if version < 7 then
        ⟨false, "NX-OS " ++ fmt1 version ++ " does not support VXLAN (minimum: 7.0)", [],
         ["Upgrade NX-OS to version 7.0 or higher",
          "Current version may have limited VXLAN functionality"], "critical"⟩
      else
        ⟨true, "Platform supports VXLAN (NX-OS " ++ fmt1 version ++ ")",
         [("version", .rat version), ("platform", .str "Nexus 9000")], [], "info"⟩

end PlatformValidator

namespace InterfaceValidator

/-- The classification part of `InterfaceValidator.validate_nve_peers`
(applied once a nonheader-less output has been parsed). -/
def nvePeerCheck (peers : List Peer) : ValidationResult :=
  if peers = [] then
    ⟨false, "NVE peers table exists but no peers found", [],
     ["Check underlay connectivity",
      "Verify VXLAN configuration on peer devices"], "warning"⟩
  else
    let up_peers := peers.filter (fun p => decide (p.state = "Up"))
    let total_peers := peers.length
    let up_count := up_peers.length
    if up_count = 0 then
      ⟨false, "All " ++ Nat.repr total_peers ++ " NVE peers are down",
       [("peers", .peerList peers)],
       ["Check underlay routing to peer IPs",
        "Verify source-interface reachability",
        "Check for network connectivity issues",
        "Verify VXLAN configuration on peers"], "critical"⟩
    else if up_count < total_peers then
      let down_peers := peers.filter (fun p => decide (¬ p.state = "Up"))
      ⟨false, "Only " ++ (Nat.repr up_count ++ "/" ++ Nat.repr total_peers) ++ " NVE peers are up",
       [("up_peers", .peerList up_peers), ("down_peers", .peerList down_peers)],
       ["Check connectivity to down peers: " ++ pyReprStrList (down_peers.map Peer.ip),
        "Verify underlay routing",
        "Check peer device status"], "error"⟩
    else
      ⟨true, "All " ++ Nat.repr total_peers ++ " NVE peers are up and healthy",
       [("peers", .peerList peers), ("peer_count", .nat total_peers)], [], "info"⟩

/-- `InterfaceValidator.validate_nve_peers` after a successful
`show nve peers` execution. -/
def validate_nve_peers (output : String) : ValidationResult :=
  if strContains output "Peer-IP" = false then
    ⟨true, "No NVE peers configured (acceptable for single-node deployments)", [],
     ["For multi-node VXLAN, configure peer discovery",
      "Verify underlay routing for peer reachability"], "info"⟩
  else nvePeerCheck (VXLANParser.parse_nve_peers output)

end InterfaceValidator

namespace VNIValidator

/-- `VNIValidator._validate_vni_usage` (`vxlan_validators.py`): literal
cut points 90/75 against the configured maximum VNI count
(`CONFIG.thresholds.max_vni_count`, environment-overridable, passed here
as `max_vnis`). -/
def validate_vni_usage (max_vnis current_vnis : ℕ) : ValidationResult :=
  let percentage : ℚ := (current_vnis : ℚ) / (max_vnis : ℚ) * 100
  if percentage ≥ 90 then
    ⟨false, "Critical VNI usage: " ++ Nat.repr current_vnis ++ "/" ++ Nat.repr max_vnis ++
       " (" ++ fmt1 percentage ++ "%)",
     [("percentage", .rat percentage), ("current", .nat current_vnis), ("max", .nat max_vnis)],
     ["Immediate action required - approaching VNI limit",
      "Review and remove unused VNIs",
      "Consider VNI consolidation strategies",
      "Plan for additional hardware if needed"], "critical"⟩
  else if percentage ≥ 75 then
    ⟨false, "High VNI usage: " ++ Nat.repr current_vnis ++ "/" ++ Nat.repr max_vnis ++
       " (" ++ fmt1 percentage ++ "%)",
     [("percentage", .rat percentage), ("current", .nat current_vnis), ("max", .nat max_vnis)],
     ["Monitor VNI growth trends",
      "Plan for capacity expansion",
      "Optimize VNI allocation"], "warning"⟩
  else
    ⟨true, "VNI usage within acceptable limits: " ++ Nat.repr current_vnis ++ "/" ++
       Nat.repr max_vnis ++ " (" ++ fmt1 percentage ++ "%)",
     [("percentage", .rat percentage), ("current", .nat current_vnis), ("max", .nat max_vnis)],
     [], "info"⟩

/-- The per-record validation loop plus result assembly of
`VNIValidator.validate_vni_configuration` (lines 347-402), applied to a
nonempty parsed VNI list. -/
def vniCheck (max_vnis : ℕ) (vnis : List VNIInfo) : ValidationResult :=
  let issues := collectIssues vniIssuesV vnis
  let l2_vnis := vnis.filter (fun v => decide (v.type = "L2"))
  let l3_vnis := vnis.filter (fun v => decide (v.type = "L3"))
  let total_vnis := vnis.length
  let usage_result := validate_vni_usage max_vnis total_vnis
  if issues ≠ [] then
    ⟨false, "VNI configuration issues found: " ++ Nat.repr issues.length ++ " problems",
     [("issues", .strList issues),
      ("l2_vni_count", .nat l2_vnis.length),
      ("l3_vni_count", .nat l3_vnis.length),
      ("total_vnis", .nat total_vnis)],
     ["Fix VNI-to-VLAN/VRF mappings",
      "Check VNI state and troubleshoot down VNIs",
      "Verify consistent configuration across fabric"], "error"⟩
  else
    ⟨usage_result.passed,
     "Found " ++ Nat.repr total_vnis ++ " properly configured VNIs (" ++
       Nat.repr l2_vnis.length ++ " L2, " ++ Nat.repr l3_vnis.length ++ " L3)",
     [("l2_vnis", .vniList l2_vnis),
      ("l3_vnis", .vniList l3_vnis),
      ("total_vnis", .nat total_vnis),
      ("usage_percentage", (lookupDetail usage_result.details "percentage").getD (.nat 0))],
     (if usage_result.passed then [] else usage_result.recommendations),
     usage_result.severity⟩

/-- `VNIValidator.validate_vni_configuration` after a successful
`show nve vni` execution. -/
def validate_vni_configuration (max_vnis : ℕ) (output : String) : ValidationResult :=
  if strContains output "VNI" = false then
    ⟨false, "No VNIs configured", [],
     ["Configure VNI-to-VLAN mappings",
      "Example: vlan 100 -> vn-segment 10100",
      "Add VNI to NVE interface: interface nve1 -> member vni 10100"], "warning"⟩
  else if VXLANParser.parse_vni_info output = [] then
    ⟨false, "VNI section exists but no VNIs parsed", [],
     ["Check VNI configuration format"], "error"⟩
  else vniCheck max_vnis (VXLANParser.parse_vni_info output)

end VNIValidator

namespace BGPValidator

/-- The neighbor-based part of `BGPValidator.validate_bgp_evpn`
(lines 517-567, everything after the running/invalid-command screen). -/
def bgpNeighborCheck (neighbors : List BGPNeighbor) : ValidationResult :=
  if neighbors = [] then
    ⟨false, "No BGP EVPN neighbors configured", [],
     ["Configure BGP EVPN neighbors",
      "Example: neighbor <ip> remote-as <AS>",
      "Activate EVPN address family for neighbors"], "error"⟩
  else
    let established := neighbors.filter (fun n => decide (lowerStr n.state = "established"))
    let total := neighbors.length
    let established_count := established.length
    if established_count = 0 then
      ⟨false, "No BGP EVPN neighbors in established state (0/" ++ Nat.repr total ++ ")",
       [("neighbors", .neighborList neighbors)],
       ["Check BGP neighbor connectivity",
        "Verify AS numbers and neighbor IPs",
        "Check routing to neighbor addresses",
        "Review BGP authentication if configured"], "critical"⟩
    else if established_count < total then
      let down_neighbors := neighbors.filter (fun n => decide (¬ lowerStr n.state = "established"))
      ⟨false, "Only " ++ (Nat.repr established_count ++ "/" ++ Nat.repr total) ++
         " BGP EVPN neighbors established",
       [("established", .neighborList established), ("down", .neighborList down_neighbors)],
       ["Troubleshoot down neighbors: " ++ pyReprStrList (down_neighbors.map BGPNeighbor.ip),
        "Check neighbor connectivity and configuration",
        "Verify BGP timers and authentication"], "error"⟩
    else
      ⟨true, "All " ++ Nat.repr total ++ " BGP EVPN neighbors are established",
       [("neighbors", .neighborList neighbors), ("established_count", .nat established_count)],
       [], "info"⟩

end BGPValidator

/-! ## Counter extraction
(`VXLANHealthMonitoring.test_interface_statistics` in
`enhanced_vxlan_testsuite.py`, lines 246-259). -/

/-- The fault-keyword vocabulary of the enhanced test suite
(`error_patterns = ['error', 'drop', 'discard', 'invalid']`). -/
def error_patterns : List String := ["error", "drop", "discard", "invalid"]

/-- One iteration of the inner `for pattern in error_patterns` loop:
`if pattern in line.lower() and re.search(r'\d+', line)` and some number
exceeds the threshold, the stripped line is appended and all positive
numbers of the line are added to the running total. -/
def counterStep (threshold : ℕ) (line : String) (acc : List String × ℕ)
    (pattern : String) : List String × ℕ :=
  if strContains (lowerStr line) pattern && !(lineNumbers line).isEmpty then
    if (lineNumbers line).any (fun n => decide (threshold < n)) then
      (acc.1 ++ [trimStr line],
       acc.2 + ((lineNumbers line).filter (fun n => decide (0 < n))).sum)
    else acc
  else acc

/-- The inner `for pattern in error_patterns` loop for one line. -/
def lineCounterHits (threshold : ℕ) (line : String) : List String × ℕ :=
  error_patterns.foldl (counterStep threshold line) ([], 0)

/-- The full scan over `output.split('\n')`: returns
`(errors_found, total_errors)`. -/
def scanCounters (threshold : ℕ) (output : String) : List String × ℕ :=
  (splitLines output).foldl
    (fun acc line =>
      let h := lineCounterHits threshold line
      (acc.1 ++ h.1, acc.2 + h.2))
    ([], 0)

/-! ## Aggregator
(`CommonCleanup.generate_summary_report` in `enhanced_vxlan_testsuite.py`). -/

/-- One device is healthy iff it has no recorded result that is failing
with severity error or critical (`not any(not result['passed'] and
result['severity'] in ['error', 'critical'] ...)`). -/
def deviceHealthy (results : List ValidationResult) : Bool :=
  !(results.any (fun r =>
      !r.passed && (decide (r.severity = "error") || decide (r.severity = "critical"))))

/-- The fleet totals of the summary report:
`(healthy_devices, total_devices)`. -/
def summaryTotals (devices : List (String × List ValidationResult)) : ℕ × ℕ :=
  ((devices.filter (fun d => deviceHealthy d.2)).length, devices.length)

/-! ## Exception boundaries (claim C9):
`StructuredTestStep.validate_and_process` in `base_test.py` and the
`except` clauses of `VNIValidator.validate_ingress_replication` and
`BGPValidator.validate_evpn_routes` in `vxlan_validators.py`. -/

/-- A raised Python exception: either a `VXLANTestException` (which
carries details and recommendations) or any other exception (with its
type name and message). -/
inductive PyExc where
  | vxlanTest (msg : String) (details : List (String × DetailValue))
      (recommendations : List String)
  | other (typeName : String) (msg : String)
deriving DecidableEq

/-- `StructuredTestStep.validate_and_process`: the validator body either
returns a result or raises; both except clauses convert the exception
into a failing `severity='error'` result. -/
def validate_and_process (body : Except PyExc ValidationResult) : ValidationResult :=
  match body with
  | .ok result => result
  | .error (.vxlanTest msg details recommendations) =>
    ⟨false, msg, details, recommendations, "error"⟩
  | .error (.other typeName msg) =>
    ⟨false, "Unexpected error: " ++ msg, [("exception_type", .str typeName)],
     ["Check device connectivity and configuration"], "error"⟩

/-- `VNIValidator.validate_ingress_replication`: the whole body is
wrapped in try/except and the except clause returns a *passing*
`severity='info'` result. -/
def validate_ingress_replication (execOutput : Except PyExc String) : ValidationResult :=
  match execOutput with
  | .error _ =>
    ⟨true, "Ingress replication check not applicable", [],
     ["Manual verification may be required"], "info"⟩
  | .ok output =>
    if strContains output "VNI" = false then
      ⟨true, "No specific ingress replication configuration (may use defaults)", [],
       ["Consider configuring explicit ingress replication",
        "Options: BGP EVPN or static peer lists"], "info"⟩
    else
      let has_bgp := strContains (lowerStr output) "protocol-bgp" ||
        strContains (lowerStr output) "bgp"
      let has_static := strContains (lowerStr output) "static"
      if has_bgp = false && has_static = false then
        ⟨false, "Ingress replication not properly configured", [],
         ["Configure BGP EVPN for automatic peer discovery",
          "Or configure static ingress replication lists",
          "Example: interface nve1 -> member vni 10100 ingress-replication protocol bgp"],
         "error"⟩
      else
        ⟨true, "Ingress replication configured using " ++
           (if has_bgp then "BGP EVPN" else "Static"),
         [("method", .str (if has_bgp then "BGP EVPN" else "Static"))], [], "info"⟩

/-- `BGPValidator.validate_evpn_routes`: the whole body is wrapped in
try/except and the except clause returns a *passing* `severity='info'`
result. -/
def validate_evpn_routes (execOutput : Except PyExc String) : ValidationResult :=
  match execOutput with
  | .error _ =>
    ⟨true, "EVPN route check not applicable or failed", [],
     ["Manual verification may be required"], "info"⟩
  | .ok output =>
    if trimStr output = "" then
      ⟨false, "No EVPN routes found", [],
       ["Check VXLAN VNI configuration",
        "Verify BGP EVPN route advertisement",
        "Ensure VNIs are associated with NVE interface"], "warning"⟩
    else
      let rd_count := countOccur "Route Distinguisher".data output.data
      if rd_count = 0 then
        ⟨false, "No route distinguishers found in EVPN table", [],
         ["Configure route distinguisher for VRFs",
          "Check EVPN route advertisement configuration"], "error"⟩
      else
        ⟨true, "Found " ++ Nat.repr rd_count ++ " EVPN route distinguishers",
         [("rd_count", .nat rd_count)], [], "info"⟩

/-! ## Helper lemmas -/

theorem beginsWith_refl_append (xs ys : List Char) : beginsWith (xs ++ ys) xs = true := by
  induction xs with
  | nil => simp [beginsWith]
  | cons a tl ih => simp [beginsWith, ih]

theorem subChain_of_middle (pre mid post : List Char) :
    subChain (pre ++ (mid ++ post)) mid = true := by
  induction pre with
  | nil =>
    rw [List.nil_append]
    cases h : mid ++ post with
    | nil =>
      have hm : mid = [] := by
        cases mid with
        | nil => rfl
        | cons a tl => simp at h
      simp [hm, subChain]
    | cons c tl =>
      show (beginsWith (c :: tl) mid || subChain tl mid) = true
      rw [← h, beginsWith_refl_append, Bool.true_or]
  | cons a tl ih =>
    rw [List.cons_append, subChain, ih, Bool.or_true]

theorem strContains_middle (a p b : String) : strContains (a ++ p ++ b) p = true := by
  show subChain (a ++ p ++ b).data p.data = true
  rw [String.data_append, String.data_append, List.append_assoc]
  exact subChain_of_middle a.data p.data b.data

theorem collectIssues_append (f : VNIInfo → List String) (l1 l2 : List VNIInfo) :
    collectIssues f (l1 ++ l2) = collectIssues f l1 ++ collectIssues f l2 := by
  induction l1 with
  | nil => rfl
  | cons v tl ih => simp [collectIssues, ih]

theorem collectIssues_eq_nil (f : VNIInfo → List String) (l : List VNIInfo)
    (h : ∀ v ∈ l, f v = []) : collectIssues f l = [] := by
  induction l with
  | nil => rfl
  | cons v tl ih =>
    rw [collectIssues, h v (by simp), List.nil_append]
    exact ih (fun x hx => h x (by simp [hx]))

theorem filter_length_eq_count {α : Type} (l : List α) (f : α → Bool) :
    (l.filter f).length = (l.map f).count true := by
  induction l with
  | nil => rfl
  | cons a tl ih => cases h : f a <;> simp [h, List.count_cons, ih]

/-! ## Claims -/

/-- C1: the resource-threshold rule computes `percentage = current /
maximum * 100` and, for configured cut points `warningPct <
criticalPct`, yields `severity=critical` (failing) at `percentage >=
criticalPct`, `passed=false, severity=warning` at `warningPct <=
percentage < criticalPct`, and `passed=true` below `warningPct`; the
VNI-usage instance `VNIValidator._validate_vni_usage` uses the cut
points 75/90, and at `current=9500, max=12000` it returns
`passed=false, severity=warning`. -/
theorem C1_resource_threshold_rule (w c : ℚ) (rt : String) (cur m : ℕ)
    (hwc : w < c) :
    (((cur : ℚ) / (m : ℚ) * 100 ≥ c →
        (VXLANValidator.resourceUsageWith w c rt cur m).1 = false ∧
        (VXLANValidator.resourceUsageWith w c rt cur m).2.level = "critical") ∧
     (w ≤ (cur : ℚ) / (m : ℚ) * 100 → (cur : ℚ) / (m : ℚ) * 100 < c →
        (VXLANValidator.resourceUsageWith w c rt cur m).1 = false ∧
        (VXLANValidator.resourceUsageWith w c rt cur m).2.level = "warning") ∧
     ((cur : ℚ) / (m : ℚ) * 100 < w →
        (VXLANValidator.resourceUsageWith w c rt cur m).1 = true)) ∧
    (((cur : ℚ) / (m : ℚ) * 100 ≥ 90 →
        (VNIValidator.validate_vni_usage m cur).passed = false ∧
        (VNIValidator.validate_vni_usage m cur).severity = "critical") ∧
     (75 ≤ (cur : ℚ) / (m : ℚ) * 100 → (cur : ℚ) / (m : ℚ) * 100 < 90 →
        (VNIValidator.validate_vni_usage m cur).passed = false ∧
        (VNIValidator.validate_vni_usage m cur).severity = "warning") ∧
     ((cur : ℚ) / (m : ℚ) * 100 < 75 →
        (VNIValidator.validate_vni_usage m cur).passed = true)) ∧
    ((VNIValidator.validate_vni_usage 12000 9500).passed = false ∧
     (VNIValidator.validate_vni_usage 12000 9500).severity = "warning") := by
  refine ⟨⟨?_, ?_, ?_⟩, ⟨?_, ?_, ?_⟩, ?_⟩
  · intro h
    simp only [VXLANValidator.resourceUsageWith]
    rw [if_pos h]
    exact ⟨rfl, rfl⟩
  · intro hw hc
    simp only [VXLANValidator.resourceUsageWith]
    rw [if_neg (not_le.mpr hc), if_pos hw]
    exact ⟨rfl, rfl⟩
  · intro hw
    simp only [VXLANValidator.resourceUsageWith]
    rw [if_neg (not_le.mpr (lt_trans hw hwc)), if_neg (not_le.mpr hw)]
  · intro h
    simp only [VNIValidator.validate_vni_usage]
    rw [if_pos h]
    exact ⟨rfl, rfl⟩
  · intro hw hc
    simp only [VNIValidator.validate_vni_usage]
    rw [if_neg (not_le.mpr hc), if_pos hw]
    exact ⟨rfl, rfl⟩
  · intro hw
    simp only [VNIValidator.validate_vni_usage]
    rw [if_neg (not_le.mpr (lt_trans hw (by norm_num))), if_neg (not_le.mpr hw)]
  · have h90 : ¬(((9500 : ℕ) : ℚ) / ((12000 : ℕ) : ℚ) * 100 ≥ 90) := by
      push_cast
      norm_num
    have h75 : ((75 : ℚ) ≤ ((9500 : ℕ) : ℚ) / ((12000 : ℕ) : ℚ) * 100) := by
      push_cast
      norm_num
    simp only [VNIValidator.validate_vni_usage]
    rw [if_neg h90, if_pos h75]
    exact ⟨rfl, rfl⟩

/-- Witness for C1 at cut points 75/90, `current=9500, max=12000`. -/
theorem C1_resource_threshold_rule_witness :
    (VNIValidator.validate_vni_usage 12000 9500).passed = false ∧
    (VNIValidator.validate_vni_usage 12000 9500).severity = "warning" :=
  (C1_resource_threshold_rule 75 90 "vni" 9500 12000 (by norm_num)).2.2

/-- C2: the state-majority rule for nonempty peer collections (and
likewise BGP EVPN neighbor collections): `up == 0` gives a failing
critical result, `0 < up < total` gives `passed=false, severity=error`
with the unhealthy records in the details and a message referencing
`up/total`, and `up == total` gives `passed=true`. -/
theorem C2_state_majority_rule (peers : List Peer) (neighbors : List BGPNeighbor) :
    (peers ≠ [] →
      ((peers.filter (fun p => decide (p.state = "Up"))).length = 0 →
        (InterfaceValidator.nvePeerCheck peers).passed = false ∧
        (InterfaceValidator.nvePeerCheck peers).severity = "critical") ∧
      (0 < (peers.filter (fun p => decide (p.state = "Up"))).length →
       (peers.filter (fun p => decide (p.state = "Up"))).length < peers.length →
        (InterfaceValidator.nvePeerCheck peers).passed = false ∧
        (InterfaceValidator.nvePeerCheck peers).severity = "error" ∧
        strContains (InterfaceValidator.nvePeerCheck peers).message
          (Nat.repr (peers.filter (fun p => decide (p.state = "Up"))).length ++ "/" ++
            Nat.repr peers.length) = true ∧
        (InterfaceValidator.nvePeerCheck peers).details =
          [("up_peers", DetailValue.peerList (peers.filter (fun p => decide (p.state = "Up")))),
           ("down_peers", DetailValue.peerList (peers.filter (fun p => decide (¬ p.state = "Up"))))]) ∧
      ((peers.filter (fun p => decide (p.state = "Up"))).length = peers.length →
        (InterfaceValidator.nvePeerCheck peers).passed = true)) ∧
    (neighbors ≠ [] →
      ((neighbors.filter (fun n => decide (lowerStr n.state = "established"))).length = 0 →
        (BGPValidator.bgpNeighborCheck neighbors).passed = false ∧
        (BGPValidator.bgpNeighborCheck neighbors).severity = "critical") ∧
      (0 < (neighbors.filter (fun n => decide (lowerStr n.state = "established"))).length →
       (neighbors.filter (fun n => decide (lowerStr n.state = "established"))).length < neighbors.length →
        (BGPValidator.bgpNeighborCheck neighbors).passed = false ∧
        (BGPValidator.bgpNeighborCheck neighbors).severity = "error" ∧
        strContains (BGPValidator.bgpNeighborCheck neighbors).message
          (Nat.repr (neighbors.filter (fun n => decide (lowerStr n.state = "established"))).length ++ "/" ++
            Nat.repr neighbors.length) = true ∧
        (BGPValidator.bgpNeighborCheck neighbors).details =
          [("established", DetailValue.neighborList
              (neighbors.filter (fun n => decide (lowerStr n.state = "established")))),
           ("down", DetailValue.neighborList
              (neighbors.filter (fun n => decide (¬ lowerStr n.state = "established"))))]) ∧
      ((neighbors.filter (fun n => decide (lowerStr n.state = "established"))).length = neighbors.length →
        (BGPValidator.bgpNeighborCheck neighbors).passed = true)) := by
  constructor
  · intro hne
    have hlen : 0 < peers.length := List.length_pos.mpr hne
    refine ⟨?_, ?_, ?_⟩
    · intro h0
      simp only [InterfaceValidator.nvePeerCheck]
      rw [if_neg hne, if_pos h0]
      exact ⟨rfl, rfl⟩
    · intro hpos hlt
      simp only [InterfaceValidator.nvePeerCheck]
      rw [if_neg hne, if_neg (by omega), if_pos hlt]
      refine ⟨rfl, rfl, ?_, rfl⟩
      exact strContains_middle "Only "
        (Nat.repr (peers.filter (fun p => decide (p.state = "Up"))).length ++ "/" ++
          Nat.repr peers.length) " NVE peers are up"
    · intro heq
      simp only [InterfaceValidator.nvePeerCheck]
      rw [if_neg hne, if_neg (by omega), if_neg (by omega)]
  · intro hne
    have hlen : 0 < neighbors.length := List.length_pos.mpr hne
    refine ⟨?_, ?_, ?_⟩
    · intro h0
      simp only [BGPValidator.bgpNeighborCheck]
      rw [if_neg hne, if_pos h0]
      exact ⟨rfl, rfl⟩
    · intro hpos hlt
      simp only [BGPValidator.bgpNeighborCheck]
      rw [if_neg hne, if_neg (by omega), if_pos hlt]
      refine ⟨rfl, rfl, ?_, rfl⟩
      exact strContains_middle "Only "
        (Nat.repr (neighbors.filter (fun n => decide (lowerStr n.state = "established"))).length ++
          "/" ++ Nat.repr neighbors.length) " BGP EVPN neighbors established"
    · intro heq
      simp only [BGPValidator.bgpNeighborCheck]
      rw [if_neg hne, if_neg (by omega), if_neg (by omega)]

/-- Witness for C2 at the spec example, one Up and one Down peer. -/
theorem C2_state_majority_rule_witness :
    (InterfaceValidator.nvePeerCheck [⟨"10.0.0.1", "Up"⟩, ⟨"10.0.0.2", "Down"⟩]).passed = false ∧
    (InterfaceValidator.nvePeerCheck [⟨"10.0.0.1", "Up"⟩, ⟨"10.0.0.2", "Down"⟩]).severity = "error" ∧
    strContains (InterfaceValidator.nvePeerCheck [⟨"10.0.0.1", "Up"⟩, ⟨"10.0.0.2", "Down"⟩]).message
      (Nat.repr ((([⟨"10.0.0.1", "Up"⟩, ⟨"10.0.0.2", "Down"⟩] : List Peer).filter
          (fun p => decide (p.state = "Up"))).length) ++ "/" ++
        Nat.repr ([⟨"10.0.0.1", "Up"⟩, ⟨"10.0.0.2", "Down"⟩] : List Peer).length) = true ∧
    (InterfaceValidator.nvePeerCheck [⟨"10.0.0.1", "Up"⟩, ⟨"10.0.0.2", "Down"⟩]).details =
      [("up_peers", DetailValue.peerList
          (([⟨"10.0.0.1", "Up"⟩, ⟨"10.0.0.2", "Down"⟩] : List Peer).filter
            (fun p => decide (p.state = "Up")))),
       ("down_peers", DetailValue.peerList
          (([⟨"10.0.0.1", "Up"⟩, ⟨"10.0.0.2", "Down"⟩] : List Peer).filter
            (fun p => decide (¬ p.state = "Up"))))] :=
  ((C2_state_majority_rule [⟨"10.0.0.1", "Up"⟩, ⟨"10.0.0.2", "Down"⟩] []).1
    (by decide)).2.1 (by decide) (by decide)

/-- C3 counterexample: the output `"VNI"` contains the `VNI` token but
parses to an *empty* VNI collection, and
`VNIValidator.validate_vni_configuration` then returns severity
`error`, not the claimed `warning`. -/
theorem C3_counterexample :
    VXLANParser.parse_vni_info "VNI" = [] ∧
    (VNIValidator.validate_vni_configuration 12000 "VNI").severity = "error" ∧
    ¬ (VNIValidator.validate_vni_configuration 12000 "VNI").severity = "warning" ∧
    (VNIValidator.validate_vni_configuration 12000 "VNI").passed = false := by
  decide

/-- C3 (amended): for an empty entity collection the presence rule
gives, per entity kind: VNIs — `passed=false, severity=warning` when
the raw output lacks the `VNI` token, but `passed=false,
severity=error` when the token is present and the parsed collection is
empty; BGP EVPN neighbors — `passed=false, severity=error`; NVE peers
under the optional-peer policy (no `Peer-IP` header) — `passed=true,
severity=info`. -/
theorem C3_presence_rule_amended (m : ℕ) (output outPeers : String) :
    (strContains output "VNI" = false →
      (VNIValidator.validate_vni_configuration m output).passed = false ∧
      (VNIValidator.validate_vni_configuration m output).severity = "warning") ∧
    (strContains output "VNI" = true → VXLANParser.parse_vni_info output = [] →
      (VNIValidator.validate_vni_configuration m output).passed = false ∧
      (VNIValidator.validate_vni_configuration m output).severity = "error") ∧
    ((BGPValidator.bgpNeighborCheck []).passed = false ∧
     (BGPValidator.bgpNeighborCheck []).severity = "error") ∧
    (strContains outPeers "Peer-IP" = false →
      (InterfaceValidator.validate_nve_peers outPeers).passed = true ∧
      (InterfaceValidator.validate_nve_peers outPeers).severity = "info") := by
  refine ⟨?_, ?_, ⟨rfl, rfl⟩, ?_⟩
  · intro h
    simp only [VNIValidator.validate_vni_configuration]
    rw [if_pos h]
    exact ⟨rfl, rfl⟩
  · intro h1 h2
    simp only [VNIValidator.validate_vni_configuration]
    rw [if_neg (by simp [h1]), if_pos h2]
    exact ⟨rfl, rfl⟩
  · intro h
    simp only [InterfaceValidator.validate_nve_peers]
    rw [if_pos h]
    exact ⟨rfl, rfl⟩

/-- Witness for C3 (amended) at concrete outputs. -/
theorem C3_presence_rule_amended_witness :
    ((VNIValidator.validate_vni_configuration 12000 "no vnis here").passed = false ∧
     (VNIValidator.validate_vni_configuration 12000 "no vnis here").severity = "warning") ∧
    ((VNIValidator.validate_vni_configuration 12000 "VNI").passed = false ∧
     (VNIValidator.validate_vni_configuration 12000 "VNI").severity = "error") ∧
    ((InterfaceValidator.validate_nve_peers "sample output").passed = true ∧
     (InterfaceValidator.validate_nve_peers "sample output").severity = "info") :=
  ⟨(C3_presence_rule_amended 12000 "no vnis here" "x").1 (by decide),
   (C3_presence_rule_amended 12000 "VNI" "x").2.1 (by decide) (by decide),
   (C3_presence_rule_amended 12000 "x" "sample output").2.2.2 (by decide)⟩

/-- C4: the association rule inspects every VNI record, counting one
issue per L2 record without a VLAN, one per L3 record without a VRF and
one per record in Down state; with at least one issue the check fails
once with `severity=error` carrying the full issue list, and on a
nonempty well-formed collection it returns `passed=true`. -/
theorem C4_association_rule (vnis l1 l2 : List VNIInfo) (m : ℕ) (v : VNIInfo) :
    (vnis ≠ [] →
      (∀ x ∈ vnis, (x.type = "L2" → x.vlan ≠ none) ∧ (x.type = "L3" → x.vrf ≠ none) ∧
        x.state ≠ some "Down") →
      VXLANValidator.validate_vni_configuration vnis = (true, [])) ∧
    (collectIssues vniIssuesV (l1 ++ l2) =
      collectIssues vniIssuesV l1 ++ collectIssues vniIssuesV l2) ∧
    ((vniIssuesV v).length =
      (if v.type = "L2" ∧ v.vlan = none then 1 else 0) +
      (if v.type = "L3" ∧ v.vrf = none then 1 else 0) +
      (if v.state = some "Down" then 1 else 0)) ∧
    (collectIssues vniIssuesV vnis ≠ [] →
      (VNIValidator.vniCheck m vnis).passed = false ∧
      (VNIValidator.vniCheck m vnis).severity = "error" ∧
      (VNIValidator.vniCheck m vnis).details =
        [("issues", DetailValue.strList (collectIssues vniIssuesV vnis)),
         ("l2_vni_count", DetailValue.nat (vnis.filter (fun x => decide (x.type = "L2"))).length),
         ("l3_vni_count", DetailValue.nat (vnis.filter (fun x => decide (x.type = "L3"))).length),
         ("total_vnis", DetailValue.nat vnis.length)]) := by
  refine ⟨?_, collectIssues_append vniIssuesV l1 l2, ?_, ?_⟩
  · intro hne hwf
    have hall : ∀ x ∈ vnis, vniIssuesU x = [] := by
      intro x hx
      obtain ⟨h1, h2, h3⟩ := hwf x hx
      simp only [vniIssuesU]
      rw [if_neg (fun hc => h1 hc.1 hc.2), if_neg (fun hc => h2 hc.1 hc.2), if_neg h3]
      rfl
    simp only [VXLANValidator.validate_vni_configuration]
    rw [if_neg hne, collectIssues_eq_nil vniIssuesU vnis hall]
    rfl
  · simp only [vniIssuesV]
    by_cases h2 : v.type = "L2" <;> by_cases h3 : v.type = "L3" <;>
      by_cases hv : v.vlan = none <;> by_cases hr : v.vrf = none <;>
      by_cases hs : v.state = some "Down" <;>
      simp [h2, h3, hv, hr, hs]
  · intro hiss
    simp only [VNIValidator.vniCheck]
    rw [if_pos hiss]
    exact ⟨rfl, rfl, rfl⟩

/-- Witness for C4: a well-formed single-record collection passes, and a
collection with a missing VLAN fails once with the full issue list. -/
theorem C4_association_rule_witness :
    VXLANValidator.validate_vni_configuration
      [⟨10100, "L2", some 100, none, some "Up", none⟩] = (true, []) ∧
    ((VNIValidator.vniCheck 12000 [⟨10100, "L2", none, none, none, none⟩]).passed = false ∧
     (VNIValidator.vniCheck 12000 [⟨10100, "L2", none, none, none, none⟩]).severity = "error" ∧
     (VNIValidator.vniCheck 12000 [⟨10100, "L2", none, none, none, none⟩]).details =
       [("issues", DetailValue.strList
           (collectIssues vniIssuesV [⟨10100, "L2", none, none, none, none⟩])),
        ("l2_vni_count", DetailValue.nat
           (([⟨10100, "L2", none, none, none, none⟩] : List VNIInfo).filter
             (fun x => decide (x.type = "L2"))).length),
        ("l3_vni_count", DetailValue.nat
           (([⟨10100, "L2", none, none, none, none⟩] : List VNIInfo).filter
             (fun x => decide (x.type = "L3"))).length),
        ("total_vnis", DetailValue.nat
           ([⟨10100, "L2", none, none, none, none⟩] : List VNIInfo).length)]) :=
  ⟨(C4_association_rule [⟨10100, "L2", some 100, none, some "Up", none⟩] [] [] 12000
      ⟨1, "L2", none, none, none, none⟩).1 (by decide) (by decide),
   (C4_association_rule [⟨10100, "L2", none, none, none, none⟩] [] [] 12000
      ⟨1, "L2", none, none, none, none⟩).2.2.2 (by decide)⟩

/-- C5: once the platform screen has passed, the version rule reports an
unparseable version (`None`) as a failing `severity=error` result with a
"could not determine" message, a version below the 7.0 minimum as
`severity=critical`, and anything else as `passed=true`; an output with
no parsable version string yields `None` from the parser (a result, not
an exception). -/
theorem C5_version_rule (output : String)
    (hnx : strContains (lowerStr output) "nexus" = true)
    (h9k : strContains output "9000" = true) :
    (VXLANParser.parse_nxos_version output = none →
      (PlatformValidator.validate_platform_support output).passed = false ∧
      (PlatformValidator.validate_platform_support output).severity = "error" ∧
      strContains (lowerStr (PlatformValidator.validate_platform_support output).message)
        "could not determine" = true) ∧
    (∀ v : ℚ, VXLANParser.parse_nxos_version output = some v → v < 7 →
      (PlatformValidator.validate_platform_support output).passed = false ∧
      (PlatformValidator.validate_platform_support output).severity = "critical") ∧
    (∀ v : ℚ, VXLANParser.parse_nxos_version output = some v → ¬ v < 7 →
      (PlatformValidator.validate_platform_support output).passed = true) := by
  refine ⟨?_, ?_, ?_⟩
  · intro hp
    simp only [PlatformValidator.validate_platform_support]
    rw [hnx, h9k, hp]
    exact ⟨by simp, by simp, by simp; decide⟩
  · intro v hp hlt
    simp only [PlatformValidator.validate_platform_support]
    rw [hnx, h9k, hp]
    simp [hlt]
  · intro v hp hge
    simp only [PlatformValidator.validate_platform_support]
    rw [hnx, h9k, hp]
    simp [hge]

/-- Witness for C5: a Nexus 9000 output with no parsable version string. -/
theorem C5_version_rule_witness :
    (PlatformValidator.validate_platform_support "Nexus 9000 uptime is 5 days").passed = false ∧
    (PlatformValidator.validate_platform_support "Nexus 9000 uptime is 5 days").severity = "error" ∧
    strContains
      (lowerStr (PlatformValidator.validate_platform_support "Nexus 9000 uptime is 5 days").message)
      "could not determine" = true :=
  (C5_version_rule "Nexus 9000 uptime is 5 days" (by decide) (by decide)).1 (by decide)

/-- C6 counterexample: with `max_vni_count = 10` and nine Down records,
the association rule contributes issues (severity `error`) and the VNI
resource-usage rule fails at severity `critical`, yet the combined
check returns severity `error` — not the worst of the contributing
severities. -/
theorem C6_counterexample :
    (VNIValidator.vniCheck 10
      (List.replicate 9 ⟨100, "L2", some 10, none, some "Down", none⟩)).severity = "error" ∧
    (VNIValidator.vniCheck 10
      (List.replicate 9 ⟨100, "L2", some 10, none, some "Down", none⟩)).passed = false ∧
    (VNIValidator.validate_vni_usage 10 9).severity = "critical" ∧
    (VNIValidator.validate_vni_usage 10 9).passed = false ∧
    sevRank "error" < sevRank "critical" := by
  have h90 : (((9 : ℕ) : ℚ) / ((10 : ℕ) : ℚ) * 100 ≥ 90) := by
    push_cast
    norm_num
  refine ⟨by decide, by decide, ?_, ?_, by decide⟩
  · simp only [VNIValidator.validate_vni_usage]
    rw [if_pos h90]
  · simp only [VNIValidator.validate_vni_usage]
    rw [if_pos h90]

/-- C6 (amended): when association issues exist the combined VNI check
returns severity `error` with the fixed issue recommendations,
discarding the resource-usage rule entirely; only when there are no
issues do the final `passed`, severity and recommendations come from
the resource-usage rule (recommendations only when it failed). -/
theorem C6_combination_amended (m : ℕ) (vnis : List VNIInfo) :
    (collectIssues vniIssuesV vnis ≠ [] →
      (VNIValidator.vniCheck m vnis).severity = "error" ∧
      (VNIValidator.vniCheck m vnis).passed = false ∧
      (VNIValidator.vniCheck m vnis).recommendations =
        ["Fix VNI-to-VLAN/VRF mappings",
         "Check VNI state and troubleshoot down VNIs",
         "Verify consistent configuration across fabric"]) ∧
    (collectIssues vniIssuesV vnis = [] →
      (VNIValidator.vniCheck m vnis).severity =
        (VNIValidator.validate_vni_usage m vnis.length).severity ∧
      (VNIValidator.vniCheck m vnis).passed =
        (VNIValidator.validate_vni_usage m vnis.length).passed ∧
      (VNIValidator.vniCheck m vnis).recommendations =
        (if (VNIValidator.validate_vni_usage m vnis.length).passed then []
         else (VNIValidator.validate_vni_usage m vnis.length).recommendations)) := by
  constructor
  · intro h
    simp only [VNIValidator.vniCheck]
    rw [if_pos h]
    exact ⟨rfl, rfl, rfl⟩
  · intro h
    simp only [VNIValidator.vniCheck]
    rw [if_neg (by simp [h])]
    exact ⟨rfl, rfl, rfl⟩

/-- Witness for C6 (amended) at concrete collections. -/
theorem C6_combination_amended_witness :
    ((VNIValidator.vniCheck 10
        (List.replicate 9 ⟨100, "L2", some 10, none, some "Down", none⟩)).severity = "error" ∧
     (VNIValidator.vniCheck 10
        (List.replicate 9 ⟨100, "L2", some 10, none, some "Down", none⟩)).passed = false ∧
     (VNIValidator.vniCheck 10
        (List.replicate 9 ⟨100, "L2", some 10, none, some "Down", none⟩)).recommendations =
       ["Fix VNI-to-VLAN/VRF mappings",
        "Check VNI state and troubleshoot down VNIs",
        "Verify consistent configuration across fabric"]) ∧
    ((VNIValidator.vniCheck 12000 [⟨10100, "L2", some 100, none, some "Up", none⟩]).severity =
       (VNIValidator.validate_vni_usage 12000
         ([⟨10100, "L2", some 100, none, some "Up", none⟩] : List VNIInfo).length).severity) :=
  ⟨(C6_combination_amended 10
      (List.replicate 9 ⟨100, "L2", some 10, none, some "Down", none⟩)).1 (by decide),
   ((C6_combination_amended 12000
      [⟨10100, "L2", some 100, none, some "Up", none⟩]).2 (by decide)).1⟩

theorem counterFold_invariant (th : ℕ) (line : String) (ps : List String)
    (acc : List String × ℕ) :
    (ps.foldl (counterStep th line) acc).2 + acc.1.length *
        ((lineNumbers line).filter (fun n => decide (0 < n))).sum =
    (ps.foldl (counterStep th line) acc).1.length *
        ((lineNumbers line).filter (fun n => decide (0 < n))).sum + acc.2 := by
  induction ps generalizing acc with
  | nil => exact Nat.add_comm _ _
  | cons p ps ih =>
    rw [List.foldl_cons]
    by_cases c1 : (strContains (lowerStr line) p && !(lineNumbers line).isEmpty) = true
    · by_cases c2 : ((lineNumbers line).any (fun n => decide (th < n))) = true
      · have hs : counterStep th line acc p =
            (acc.1 ++ [trimStr line],
             acc.2 + ((lineNumbers line).filter (fun n => decide (0 < n))).sum) := by
          simp [counterStep, c1, c2]
        rw [hs]
        have h := ih (acc.1 ++ [trimStr line],
          acc.2 + ((lineNumbers line).filter (fun n => decide (0 < n))).sum)
        have hlen : (acc.1 ++ [trimStr line]).length = acc.1.length + 1 := by
          simp
        rw [hlen] at h
        have hexp : (acc.1.length + 1) *
            ((lineNumbers line).filter (fun n => decide (0 < n))).sum =
            acc.1.length * ((lineNumbers line).filter (fun n => decide (0 < n))).sum +
            ((lineNumbers line).filter (fun n => decide (0 < n))).sum := by
          ring
        rw [hexp] at h
        linarith
      · have hs : counterStep th line acc p = acc := by
          simp [counterStep, c1, c2]
        rw [hs]
        exact ih acc
    · have hs : counterStep th line acc p = acc := by
        simp [counterStep, c1]
      rw [hs]
      exact ih acc

theorem lineCounterHits_benign (th : ℕ) (line : String)
    (h : ∀ n ∈ lineNumbers line, n ≤ th) : lineCounterHits th line = ([], 0) := by
  have hany : ((lineNumbers line).any (fun n => decide (th < n))) = false := by
    rw [List.any_eq_false]
    intro n hn
    simp only [decide_eq_true_eq]
    exact Nat.not_lt.mpr (h n hn)
  have hstep : ∀ (ps : List String) (acc : List String × ℕ),
      ps.foldl (counterStep th line) acc = acc := by
    intro ps
    induction ps with
    | nil => intro acc; rfl
    | cons p ps ih =>
      intro acc
      rw [List.foldl_cons]
      have hs : counterStep th line acc p = acc := by
        simp only [counterStep, hany, Bool.false_eq_true, if_false]
        split <;> rfl
      rw [hs]
      exact ih acc
  exact hstep error_patterns ([], 0)

theorem scanCounters_benign (th : ℕ) (out : String)
    (h : ∀ l ∈ splitLines out, ∀ n ∈ lineNumbers l, n ≤ th) :
    scanCounters th out = ([], 0) := by
  have hfold : ∀ (lines : List String) (acc : List String × ℕ),
      (∀ l ∈ lines, lineCounterHits th l = ([], 0)) →
      lines.foldl
        (fun acc line =>
          let hh := lineCounterHits th line
          (acc.1 ++ hh.1, acc.2 + hh.2)) acc = acc := by
    intro lines
    induction lines with
    | nil => intro acc _; rfl
    | cons l tl ih =>
      intro acc hall
      rw [List.foldl_cons]
      have h1 : lineCounterHits th l = ([], 0) := hall l (by simp)
      have hs : (acc.1 ++ (lineCounterHits th l).1, acc.2 + (lineCounterHits th l).2) = acc := by
        rw [h1, List.append_nil, Nat.add_zero]
      simp only [hs]
      exact ih acc (fun x hx => hall x (by simp [hx]))
  exact hfold (splitLines out) ([], 0) (fun l hl => lineCounterHits_benign th l (h l hl))

/-- C7 counterexample: at floor 100, the line `input errors 150 5` is
flagged and contributes `155` — the sum of *all* positive numbers on
the line, not only those above the floor (which would be `150`); and a
`crc` counter above the floor is not flagged at all because `crc` is
not in the enhanced suite's keyword vocabulary. -/
theorem C7_counterexample :
    scanCounters 100 "input errors 150 5" = (["input errors 150 5"], 155) ∧
    ((lineNumbers "input errors 150 5").filter (fun n => decide (100 < n))).sum = 150 ∧
    (155 : ℕ) ≠ 150 ∧
    scanCounters 100 "crc 500" = ([], 0) := by
  decide

/-- C7 (amended): counter extraction scans every line for the keywords
`error, drop, discard, invalid` (`crc` appears only in the monolithic
variant, which counts regex matches instead of values); a line is
flagged only when some number on it exceeds the configured floor, once
per matching keyword, each time adding the sum of all *positive*
numbers of the line; an output whose numbers are all at or below the
floor is never flagged and contributes nothing. -/
theorem C7_counter_extraction_amended (th : ℕ) (out line : String) :
    ((∀ l ∈ splitLines out, ∀ n ∈ lineNumbers l, n ≤ th) →
      scanCounters th out = ([], 0)) ∧
    ((lineCounterHits th line).2 = (lineCounterHits th line).1.length *
      ((lineNumbers line).filter (fun n => decide (0 < n))).sum) ∧
    ((lineCounterHits th line).1 ≠ [] → ∃ n ∈ lineNumbers line, th < n) := by
  refine ⟨scanCounters_benign th out, ?_, ?_⟩
  · have h := counterFold_invariant th line error_patterns ([], 0)
    simpa [lineCounterHits] using h
  · intro hne
    by_contra hc
    push_neg at hc
    have : lineCounterHits th line = ([], 0) :=
      lineCounterHits_benign th line hc
    rw [this] at hne
    exact hne rfl

/-- Witness for C7 (amended) at a benign output and a flagged line. -/
theorem C7_counter_extraction_amended_witness :
    scanCounters 100 "no numbers in this text" = ([], 0) ∧
    (∃ n ∈ lineNumbers "input errors 150 5", 100 < n) :=
  ⟨(C7_counter_extraction_amended 100 "no numbers in this text" "x").1 (by decide),
   (C7_counter_extraction_amended 100 "x" "input errors 150 5").2.2 (by decide)⟩

/-- C8 counterexample: a device whose only recorded result has severity
`error` but `passed=true` is still counted healthy — the summary tests
`not passed and severity in ['error','critical']`, not the severity
alone, so "healthy iff no result has severity error or critical" is
false as an iff. -/
theorem C8_counterexample :
    deviceHealthy [⟨true, "ok", [], [], "error"⟩] = true ∧
    (⟨true, "ok", [], [], "error"⟩ : ValidationResult).severity = "error" ∧
    summaryTotals [("device1", [⟨true, "ok", [], [], "error"⟩])] = (1, 1) := by
  decide

/-- C8 (amended): a device is counted healthy iff none of its recorded
results is *failing* (`passed=false`) with severity `error` or
`critical`; a device whose failing results are all warnings counts
healthy, and the fleet totals are the healthy-device count and the
total-device count. -/
theorem C8_summary_health_amended (results : List ValidationResult)
    (devices : List (String × List ValidationResult)) :
    (deviceHealthy results = true ↔
      ∀ r ∈ results, r.passed = true ∨ (r.severity ≠ "error" ∧ r.severity ≠ "critical")) ∧
    ((∀ r ∈ results, r.passed = false → r.severity = "warning") →
      deviceHealthy results = true) ∧
    (summaryTotals devices).1 = (devices.map (fun d => deviceHealthy d.2)).count true ∧
    (summaryTotals devices).2 = devices.length := by
  have hiff : deviceHealthy results = true ↔
      ∀ r ∈ results, r.passed = true ∨ (r.severity ≠ "error" ∧ r.severity ≠ "critical") := by
    simp only [deviceHealthy, Bool.not_eq_true', List.any_eq_false]
    constructor
    · intro h r hr
      have h1 := h r hr
      by_cases hp : r.passed = true
      · exact Or.inl hp
      · have hp2 : r.passed = false := by
          revert hp
          cases r.passed <;> simp
        right
        refine ⟨fun hc => h1 ?_, fun hc => h1 ?_⟩
        · simp [hp2, hc]
        · simp [hp2, hc]
    · intro h r hr hcontra
      rcases h r hr with h1 | ⟨h2, h3⟩
      · simp [h1] at hcontra
      · simp [h2, h3] at hcontra
  refine ⟨hiff, ?_, ?_, rfl⟩
  · intro h
    rw [hiff]
    intro r hr
    by_cases hp : r.passed = true
    · exact Or.inl hp
    · have hw := h r hr (by revert hp; cases r.passed <;> simp)
      right
      rw [hw]
      exact ⟨by decide, by decide⟩
  · exact filter_length_eq_count devices (fun d => deviceHealthy d.2)

/-- Witness for C8 (amended): a device whose only failing result is a
warning counts healthy. -/
theorem C8_summary_health_amended_witness :
    deviceHealthy [⟨false, "high usage", [], [], "warning"⟩] = true :=
  (C8_summary_health_amended [⟨false, "high usage", [], [], "warning"⟩] []).2.1
    (by decide)

/-- C9 counterexample: an exception raised while producing the
ingress-replication check's result is converted into a *passing*
`severity=info` result, not the claimed failing `severity=error`
result. -/
theorem C9_counterexample :
    (validate_ingress_replication (Except.error (PyExc.other "RuntimeError" "boom"))).passed =
      true ∧
    (validate_ingress_replication (Except.error (PyExc.other "RuntimeError" "boom"))).severity =
      "info" ∧
    ¬ (validate_ingress_replication
        (Except.error (PyExc.other "RuntimeError" "boom"))).severity = "error" := by
  decide

/-- C9 (amended): every check boundary converts an exception into
exactly one `ValidationResult` instead of propagating it;
`validate_and_process` converts any exception into a failing
`severity=error` result, while the `validate_ingress_replication` and
`validate_evpn_routes` boundaries convert exceptions into passing
`severity=info` results. -/
theorem C9_exception_boundary_amended (e : PyExc) (r : ValidationResult) :
    validate_and_process (Except.ok r) = r ∧
    (validate_and_process (Except.error e)).passed = false ∧
    (validate_and_process (Except.error e)).severity = "error" ∧
    (validate_ingress_replication (Except.error e)).passed = true ∧
    (validate_ingress_replication (Except.error e)).severity = "info" ∧
    (validate_evpn_routes (Except.error e)).passed = true ∧
    (validate_evpn_routes (Except.error e)).severity = "info" := by
  cases e <;> exact ⟨rfl, rfl, rfl, rfl, rfl, rfl, rfl⟩

/-- C10: every peer record produced by the NVE-peers extractor has state
exactly `Up` or `Down`, and a record is `Up` iff the character sequence
`Up` occurs anywhere in its source line (so a down peer whose line
contains e.g. an `Uptime` token is classified `Up`); otherwise the
state is `Down` even without a `Down` token. -/
theorem C10_peer_state_invariant (output line : String) (p : Peer) :
    (p ∈ VXLANParser.parse_nve_peers output →
      p.state = "Up" ∨ p.state = "Down") ∧
    (VXLANParser.peerOfLine line = some p →
      ((p.state = "Up" ↔ strContains line "Up" = true) ∧
       (p.state ≠ "Up" → p.state = "Down"))) := by
  have key : ∀ (l : String) (q : Peer), VXLANParser.peerOfLine l = some q →
      ((q.state = "Up" ↔ strContains l "Up" = true) ∧
       (q.state ≠ "Up" → q.state = "Down")) := by
    intro l q hq
    simp only [VXLANParser.peerOfLine] at hq
    cases hip : VXLANParser.findIPv4 l with
    | none => rw [hip] at hq; exact absurd hq (by simp)
    | some ip =>
      rw [hip] at hq
      have hqe : q = ⟨ip, if strContains l "Up" then "Up" else "Down"⟩ := by
        exact (Option.some_injective _ hq).symm
      by_cases hc : strContains l "Up" = true
      · rw [hqe]
        simp [hc]
      · have hc2 : strContains l "Up" = false := by
          revert hc
          cases strContains l "Up" <;> simp
        rw [hqe]
        simp [hc2]
  constructor
  · intro hm
    simp only [VXLANParser.parse_nve_peers] at hm
    obtain ⟨l, hl, hq⟩ := List.mem_filterMap.mp hm
    have h := key l p hq
    by_cases hup : p.state = "Up"
    · exact Or.inl hup
    · exact Or.inr (h.2 hup)
  · exact key line p

/-- Witness for C10: a line for a down peer whose `Uptime` column header
embeds the token `Up` is classified `Up`. -/
theorem C10_peer_state_invariant_witness :
    ((⟨"10.0.0.2", "Up"⟩ : Peer).state = "Up" ∨
     (⟨"10.0.0.2", "Up"⟩ : Peer).state = "Down") ∧
    ((⟨"10.0.0.2", "Up"⟩ : Peer).state = "Up" ↔
      strContains "10.0.0.2  Down  1d02h Uptime" "Up" = true) :=
  ⟨(C10_peer_state_invariant "10.0.0.2  Down  1d02h Uptime"
      "10.0.0.2  Down  1d02h Uptime" ⟨"10.0.0.2", "Up"⟩).1 (by decide),
   ((C10_peer_state_invariant "10.0.0.2  Down  1d02h Uptime"
      "10.0.0.2  Down  1d02h Uptime" ⟨"10.0.0.2", "Up"⟩).2 (by decide)).1⟩
